import Mathlib

/-!
Shallow embedding of the subscription state-reconciliation engine of
`src/controllers/payment.controller.js`.

Conventions of the embedding:
* the Mongo document stores (`User`, `Plan` collections) are lists of records;
  `findById` / `findOne` become `List.find?`, and Mongoose `save()` becomes
  `saveUser`, which rewrites every stored record carrying the saved record's id;
* the Stripe gateway is an oracle: every network call may fail, so
  `stripe.subscriptions.retrieve`, `stripe.customers.create`,
  `stripe.checkout.sessions.create` and `stripe.subscriptions.update` return
  `Except String _`, the error case being a rejected call carrying its
  message; inside the webhook handler a rejected retrieve is not caught
  (no try/catch at lines 134 and 164) and escapes through `asyncHandler`
  as a non-success (server error) response with the store untouched;
* JavaScript Dates are integers (milliseconds since the epoch);
  `new Date(x * 1000)` becomes `x * 1000` and `new Date()` takes the current
  time as an explicit `now` parameter;
* JavaScript truthiness on an optional string (`if (!planId)`,
  `if (!stripeCustomerId)`, `if (session.subscription)`) is `truthyOptStr`:
  false exactly on `none` and `some ""`; truthiness on an optional number
  (`deletedSubscription.current_period_end ? _ : _`) is false on `none` and
  `some 0`;
* each operation additionally returns a trace of the gateway calls it made and
  of the billing-record saves it performed, in order, so that claims about
  "no gateway call" and "persisted before" are statable.
-/

/-- A plan document of the `Plan` collection (`models/plan.model.js` shape as
used by the controller: `_id`, `name`, `type` in Monthly / Yearly / FreeTrial,
`stripePriceId`, `isActive`). -/
structure Plan where
  id : String
  name : String
  type : String
  stripePriceId : Option String
  isActive : Bool
deriving Repr, DecidableEq

/-- The billing-relevant subset of a `User` document (`models/user.model.js`). -/
structure User where
  id : String
  email : String
  name : String
  stripeCustomerId : Option String
  stripeSubscriptionId : Option String
  subscriptionStatus : Option String
  currentPlanId : Option String
  currentPlanType : Option String
  subscriptionExpiresAt : Option Int
deriving Repr, DecidableEq

/-- One line item of a Stripe subscription (`items.data[i]`): its id and its
`price.id`. -/
structure SubItem where
  id : String
  priceId : String
deriving Repr, DecidableEq

/-- A Stripe subscription object as the controller reads it: `id`, `status`,
`current_period_end` (epoch seconds) and `items.data`. -/
structure SubSnapshot where
  id : String
  status : String
  current_period_end : Int
  items : List SubItem
deriving Repr, DecidableEq

/-- The `data.object` of a `customer.subscription.deleted` event; the
controller explicitly guards on the truthiness of `current_period_end`, so it
is kept optional here. -/
structure DeletedSubObj where
  id : String
  current_period_end : Option Int
deriving Repr, DecidableEq

/-- The metadata the checkout session carries (`userId`, `planId`,
`planType`), set at session creation and read by the webhook handler. -/
structure SessionMetadata where
  userId : String
  planId : String
  planType : String
deriving Repr, DecidableEq

/-- The `data.object` of a `checkout.session.completed` event as the
controller reads it: `id`, `customer`, optional `subscription`, `metadata`. -/
structure CheckoutSessionObj where
  id : String
  customer : String
  subscription : Option String
  metadata : SessionMetadata
deriving Repr, DecidableEq

/-- The `data.object` of an `invoice.payment_succeeded` event as the
controller reads it: `id` and optional `subscription`. -/
structure InvoiceObj where
  id : String
  subscription : Option String
deriving Repr, DecidableEq

/-- A parsed Stripe event, dispatched on by `event.type` in
`handleStripeWebhook`; `otherEvent` carries the raw type string of any other
event kind. -/
inductive StripeEvent where
  | checkoutSessionCompleted : CheckoutSessionObj → StripeEvent
  | invoicePaymentSucceeded : InvoiceObj → StripeEvent
  | customerSubscriptionUpdated : SubSnapshot → StripeEvent
  | customerSubscriptionDeleted : DeletedSubObj → StripeEvent
  | otherEvent : String → StripeEvent
deriving Repr, DecidableEq

/-- Outcome of `stripe.webhooks.constructEvent(req.body, sig, secret)`:
either a parsed event or a thrown signature-verification error with its
message. -/
inductive VerifyResult where
  | ok : StripeEvent → VerifyResult
  | failed : String → VerifyResult
deriving Repr, DecidableEq

/-- The oracle for `stripe.subscriptions.retrieve`, used by the webhook
handler: a round trip from subscription id to the snapshot the gateway
returns, or to a rejection carrying the error message. The webhook handler
has no try/catch around its retrieve calls (lines 134 and 164), so a
rejection there escapes the handler. -/
structure StripeEnv where
  retrieveSub : String → Except String SubSnapshot

/-- JavaScript truthiness of an optional string: `null` / `undefined` and the
empty string are falsy. -/
def truthyOptStr : Option String → Bool
  | none => false
  | some s => !(s == "")

/-- Mongoose `save()` on a user document: every stored record with the saved
record's `_id` is replaced by the saved record. -/
def saveUser (users : List User) (u : User) : List User :=
  users.map (fun v => if v.id == u.id then u else v)

/-- The record written by the `checkout.session.completed` arm (lines
143-148): the stored user with the six billing fields set to absolute values
taken from the retrieved subscription, the session and the loaded plan. -/
def checkoutWrite (sub : SubSnapshot) (session : CheckoutSessionObj) (plan : Plan)
    (user : User) : User :=
  { user with
    stripeSubscriptionId := some sub.id
    stripeCustomerId := some session.customer
    currentPlanId := some plan.id
    currentPlanType := some plan.type
    subscriptionStatus := some sub.status
    subscriptionExpiresAt := some (sub.current_period_end * 1000) }

/-- The `checkout.session.completed` arm of `handleStripeWebhook`
(payment.controller.js lines 129-158): when a subscription is attached,
retrieve it (a rejection escapes the handler, nothing mutated yet), load user
and plan from the session metadata, and if both exist set the six billing
fields to absolute values; otherwise leave the store unchanged. -/
def handleCheckoutCompleted (env : StripeEnv) (users : List User)
    (plans : List Plan) (session : CheckoutSessionObj) :
    Except String (List User) :=
  if truthyOptStr session.subscription then
    match env.retrieveSub (session.subscription.getD "") with
    | .error m => .error m
    | .ok sub =>
        .ok (match users.find? (fun u => u.id == session.metadata.userId),
                   plans.find? (fun p => p.id == session.metadata.planId) with
             | some user, some plan => saveUser users (checkoutWrite sub session plan user)
             | _, _ => users)
  else .ok users

/-- The `invoice.payment_succeeded` arm (lines 160-176): when a subscription
is attached, retrieve it (a rejection escapes the handler, nothing mutated
yet), find the user by stored subscription id and refresh status and expiry
only. -/
def handleInvoicePaymentSucceeded (env : StripeEnv) (users : List User)
    (invoice : InvoiceObj) : Except String (List User) :=
  if truthyOptStr invoice.subscription then
    match env.retrieveSub (invoice.subscription.getD "") with
    | .error m => .error m
    | .ok sub =>
        .ok (match users.find? (fun u => u.stripeSubscriptionId == some sub.id) with
             | some user =>
                 saveUser users
                   { user with
                     subscriptionStatus := some sub.status
                     subscriptionExpiresAt := some (sub.current_period_end * 1000) }
             | none => users)
  else .ok users

/-- The `customer.subscription.updated` arm (lines 178-197): find the user by
stored subscription id; refresh status and expiry; when the event has at
least one line item whose price resolves to a catalog plan, also remap plan
reference and kind. -/
def handleSubscriptionUpdated (users : List User) (plans : List Plan)
    (sub : SubSnapshot) : List User :=
  match users.find? (fun u => u.stripeSubscriptionId == some sub.id) with
  | some user =>
      let user1 :=
        { user with
          subscriptionStatus := some sub.status
          subscriptionExpiresAt := some (sub.current_period_end * 1000) }
      let user2 :=
        match sub.items with
        | [] => user1
        | item :: _ =>
            match plans.find? (fun p => p.stripePriceId == some item.priceId) with
            | some newPlan =>
                { user1 with
                  currentPlanId := some newPlan.id
                  currentPlanType := some newPlan.type }
            | none => user1
      saveUser users user2
  | none => users

/-- The `customer.subscription.deleted` arm (lines 199-212): find the user by
stored subscription id; clear subscription and plan fields, set status to
canceled, set expiry from `current_period_end` when truthy (present and
nonzero) else from the current time. -/
def handleSubscriptionDeleted (now : Int) (users : List User)
    (dsub : DeletedSubObj) : List User :=
  match users.find? (fun u => u.stripeSubscriptionId == some dsub.id) with
  | some user =>
      saveUser users
        { user with
          stripeSubscriptionId := none
          currentPlanId := none
          currentPlanType := none
          subscriptionStatus := some "canceled"
          subscriptionExpiresAt :=
            some (match dsub.current_period_end with
                  | some t => if t == 0 then now else t * 1000
                  | none => now) }
  | none => users

/-- The HTTP outcome of the webhook endpoint together with the resulting user
store. -/
structure WebhookResult where
  status : Nat
  body : String
  users : List User
deriving Repr

/-- `handleStripeWebhook` (lines 117-219): on verification failure respond
400 and touch nothing; otherwise dispatch on the event kind and respond 200,
except that a rejected `stripe.subscriptions.retrieve` inside the
checkout-completed or invoice arm is uncaught (no try/catch, lines 134 and
164) and escapes through `asyncHandler` to the error middleware as a server
error, modelled as status 500 with the error message and the store untouched
(the retrieve precedes every mutation in those arms). -/
def handleStripeWebhook (env : StripeEnv) (now : Int) (users : List User)
    (plans : List Plan) (v : VerifyResult) : WebhookResult :=
  match v with
  | .failed msg =>
      { status := 400, body := "Webhook Error: " ++ msg, users := users }
  | .ok e =>
      let res : Except String (List User) :=
        match e with
        | .checkoutSessionCompleted s => handleCheckoutCompleted env users plans s
        | .invoicePaymentSucceeded i => handleInvoicePaymentSucceeded env users i
        | .customerSubscriptionUpdated s => .ok (handleSubscriptionUpdated users plans s)
        | .customerSubscriptionDeleted d => .ok (handleSubscriptionDeleted now users d)
        | .otherEvent _ => .ok users
      match res with
      | .ok users2 => { status := 200, body := "Webhook Received", users := users2 }
      | .error m => { status := 500, body := m, users := users }

/-- Whether the subscription retrieve an event arm performs succeeds in the
given gateway environment: only the checkout-completed and invoice arms
retrieve, and only when a subscription is attached; every other arm makes no
retrieve call. -/
def eventRetrieveOk (env : StripeEnv) : StripeEvent → Bool
  | .checkoutSessionCompleted s =>
      if truthyOptStr s.subscription then
        match env.retrieveSub (s.subscription.getD "") with
        | .ok _ => true
        | .error _ => false
      else true
  | .invoicePaymentSucceeded i =>
      if truthyOptStr i.subscription then
        match env.retrieveSub (i.subscription.getD "") with
        | .ok _ => true
        | .error _ => false
      else true
  | _ => true

/-- A gateway (Stripe) call made by an operation, with the arguments the
controller passes. -/
inductive GatewayCall where
  | createCustomerCall (email name userId : String)
  | createSessionCall (customerRef : String) (priceRef : Option String)
      (userId planId planType : String)
  | retrieveSubscriptionCall (subRef : String)
  | updateSubscriptionCall (subRef itemId newPriceRef : String)
deriving Repr, DecidableEq

/-- One observable step of an operation: a gateway call or a billing-record
save. -/
inductive TraceStep where
  | gatewayCall : GatewayCall → TraceStep
  | saveRecord : User → TraceStep
deriving Repr, DecidableEq

/-- An `ApiError` as thrown by the controller: HTTP status code and message. -/
structure ApiError where
  statusCode : Nat
  message : String
deriving Repr, DecidableEq

/-- The successful payload of `stripe.checkout.sessions.create`: session id
and redirect URL. -/
structure StripeSession where
  id : String
  url : String
deriving Repr, DecidableEq

/-- Oracle for the gateway calls `createCheckoutSession` makes:
`customers.create` (keyed on the user data passed) and
`checkout.sessions.create` (keyed on customer ref and price ref); each either
returns a value or throws a provider error with a message. -/
structure CheckoutEnv where
  createCustomer : String → String → String → Except String String
  createSession : String → Option String → Except String StripeSession

/-- Result of `createCheckoutSession`: the HTTP outcome, the user record as
persisted when the request ends, and the ordered trace of gateway calls and
record saves. -/
structure CheckoutResult where
  response : Except ApiError StripeSession
  user : User
  trace : List TraceStep
deriving Repr

/-- The checkout-session step shared by both customer branches of
`createCheckoutSession` (lines 69-106): call `checkout.sessions.create`; on
success answer 200 with the session, on a thrown error answer 500 with its
message (or the fallback message when it is empty). -/
def checkoutSessionStep (env : CheckoutEnv) (plan : Plan) (u : User)
    (cid : String) (pre : List TraceStep) : CheckoutResult :=
  let call := TraceStep.gatewayCall
    (.createSessionCall cid plan.stripePriceId u.id plan.id plan.type)
  match env.createSession cid plan.stripePriceId with
  | .ok s => { response := .ok s, user := u, trace := pre ++ [call] }
  | .error m =>
      { response := .error
          { statusCode := 500
            message := if m == "" then "Failed to create Stripe Checkout Session." else m }
        user := u, trace := pre ++ [call] }

/-- `createCheckoutSession` (lines 37-107): validate the plan id, look the
plan up and require it active, lazily create and immediately persist a Stripe
customer when the user has none, then request the checkout session. -/
def createCheckoutSession (env : CheckoutEnv) (plans : List Plan)
    (user : User) (planId : Option String) : CheckoutResult :=
  if truthyOptStr planId = false then
    { response := .error
        { statusCode := 400
          message := "Plan ID is required to create a checkout session." }
      user := user, trace := [] }
  else
    match plans.find? (fun p => p.id == planId.getD "") with
    | none =>
        { response := .error
            { statusCode := 400
              message := "Selected plan not found or is inactive." }
          user := user, trace := [] }
    | some plan =>
        if plan.isActive = false then
          { response := .error
              { statusCode := 400
                message := "Selected plan not found or is inactive." }
            user := user, trace := [] }
        else if truthyOptStr user.stripeCustomerId then
          checkoutSessionStep env plan user (user.stripeCustomerId.getD "") []
        else
          match env.createCustomer user.email user.name user.id with
          | .error m =>
              { response := .error { statusCode := 500, message := m }
                user := user
                trace := [.gatewayCall (.createCustomerCall user.email user.name user.id)] }
          | .ok cid =>
              let u2 := { user with stripeCustomerId := some cid }
              checkoutSessionStep env plan u2 cid
                [.gatewayCall (.createCustomerCall user.email user.name user.id),
                 .saveRecord u2]

/-- Oracle for the gateway calls `upgradeToYearly` makes:
`subscriptions.retrieve` and `subscriptions.update` on (subRef, itemId,
newPriceRef). Both sit inside the try/catch of lines 249-278, so a rejected
retrieve there is caught and surfaces as the operation's 500 provider error;
this oracle models the completed retrieve round trip, on which the
upgrade-specific claims condition, and keeps `updateSub` fallible. -/
structure UpgradeEnv where
  retrieveSub : String → SubSnapshot
  updateSub : String → String → String → Except String SubSnapshot

/-- The successful payload of `upgradeToYearly`: the updated subscription id
and the new price ref. -/
structure UpgradeSuccess where
  subscriptionId : String
  newPriceId : String
deriving Repr, DecidableEq

/-- Result of `upgradeToYearly`: HTTP outcome, the (never mutated) user
record, and the gateway-call trace. -/
structure UpgradeResult where
  response : Except ApiError UpgradeSuccess
  user : User
  trace : List TraceStep
deriving Repr

/-- The expression `user.currentPlanId.stripePriceId` of line 252: the
`stripePriceId` of the plan document referenced by the user's
`currentPlanId` (the ref is populated to its plan document, modelled as a
catalog lookup); absent when the user has no plan ref, when the referenced
plan is not in the catalog, or when that plan has no price id. -/
def currentPlanPriceRef (plans : List Plan) (user : User) : Option String :=
  user.currentPlanId.bind fun pid =>
    (plans.find? (fun p => p.id == pid)).bind fun p => p.stripePriceId

/-- `upgradeToYearly` (lines 230-279): require an existing subscription ref,
status exactly active and plan type exactly Monthly; look up the active
Yearly plan and require it configured; retrieve the live subscription; find
the line item matching the current plan's price ref, failing when absent; and
update that item to the yearly price. The local billing record is never
mutated here. -/
def upgradeToYearly (env : UpgradeEnv) (plans : List Plan) (user : User) :
    UpgradeResult :=
  if truthyOptStr user.stripeSubscriptionId = false ∨
     user.subscriptionStatus ≠ some "active" ∨
     user.currentPlanType ≠ some "Monthly" then
    { response := .error
        { statusCode := 400
          message := "You must have an active Monthly plan to upgrade to Yearly." }
      user := user, trace := [] }
  else
    match plans.find? (fun p => p.type == "Yearly" && p.isActive) with
    | none =>
        { response := .error
            { statusCode := 404, message := "Yearly plan not found in database." }
          user := user, trace := [] }
    | some yearlyPlan =>
        if truthyOptStr yearlyPlan.stripePriceId = false then
          { response := .error
              { statusCode := 500, message := "Yearly plan misconfigured." }
            user := user, trace := [] }
        else
          let subRef := user.stripeSubscriptionId.getD ""
          let currentSub := env.retrieveSub subRef
          let tr0 : List TraceStep :=
            [.gatewayCall (.retrieveSubscriptionCall subRef)]
          match currentSub.items.find?
              (fun item => some item.priceId == currentPlanPriceRef plans user) with
          | none =>
              { response := .error
                  { statusCode := 500
                    message := "Could not find current subscription item." }
                user := user, trace := tr0 }
          | some item =>
              let newPrice := yearlyPlan.stripePriceId.getD ""
              let call := TraceStep.gatewayCall
                (.updateSubscriptionCall subRef item.id newPrice)
              match env.updateSub subRef item.id newPrice with
              | .ok updated =>
                  { response := .ok
                      { subscriptionId := updated.id, newPriceId := newPrice }
                    user := user, trace := tr0 ++ [call] }
              | .error m =>
                  { response := .error
                      { statusCode := 500
                        message := if m == "" then "Failed to upgrade subscription." else m }
                    user := user, trace := tr0 ++ [call] }

/-- The invariant that a set external subscription reference comes with a
non-absent subscription status, as a boolean check on one record. -/
def subStatusOk (u : User) : Bool :=
  !u.stripeSubscriptionId.isSome || u.subscriptionStatus.isSome

/-- The invariant that `currentPlanType` agrees with the kind of the plan the
catalog holds for `currentPlanId` (vacuous when the ref points outside the
catalog) and is absent when the ref is absent, as a boolean check. -/
def planKindOk (plans : List Plan) (u : User) : Bool :=
  match u.currentPlanId with
  | none => u.currentPlanType == none
  | some pid =>
      match plans.find? (fun q => q.id == pid) with
      | some p => u.currentPlanType == some p.type
      | none => true

/-- Both billing-record invariants of the spec's data-model section. -/
def BillingInv (plans : List Plan) (u : User) : Prop :=
  subStatusOk u = true ∧ planKindOk plans u = true

instance (plans : List Plan) (u : User) : Decidable (BillingInv plans u) :=
  inferInstanceAs (Decidable (_ ∧ _))

/-! ### General lemmas about the store operations -/

/-- A record of the store after a save is the saved record or an original
record. -/
theorem mem_saveUser {users : List User} {w u : User}
    (h : u ∈ saveUser users w) : u = w ∨ u ∈ users := by
  simp only [saveUser, List.mem_map] at h
  obtain ⟨v, hv, he⟩ := h
  split at he
  · exact Or.inl he.symm
  · exact Or.inr (he ▸ hv)

/-- Looking a record up by id after saving a record with the found id yields
the saved record. -/
theorem find?_id_saveUser {users : List User} {u w : User} {uid : String}
    (hfind : users.find? (fun v => v.id == uid) = some u) (hid : w.id = uid) :
    (saveUser users w).find? (fun v => v.id == uid) = some w := by
  induction users with
  | nil => simp at hfind
  | cons a l ih =>
    by_cases hc : (a.id == uid) = true
    · have haid : a.id = uid := eq_of_beq hc
      have hwa : (a.id == w.id) = true := by rw [haid, hid]; exact beq_self_eq_true uid
      have hwid : (w.id == uid) = true := by rw [hid]; exact beq_self_eq_true uid
      have hhead : (if a.id == w.id then w else a) = w := if_pos hwa
      show List.find? (fun v => v.id == uid)
        ((if a.id == w.id then w else a) :: saveUser l w) = some w
      rw [hhead]
      simp only [List.find?, hwid]
    · have hcf : (a.id == uid) = false := by simpa using hc
      have hwa : (a.id == w.id) = false := by rw [hid]; exact hcf
      have hhead : (if a.id == w.id then w else a) = a := by
        rw [hwa]; rfl
      simp only [List.find?, hcf] at hfind
      show List.find? (fun v => v.id == uid)
        ((if a.id == w.id then w else a) :: saveUser l w) = some w
      rw [hhead]
      simp only [List.find?, hcf]
      exact ih hfind

/-- Saving the same record twice is the same as saving it once. -/
theorem saveUser_saveUser (users : List User) (w : User) :
    saveUser (saveUser users w) w = saveUser users w := by
  induction users with
  | nil => rfl
  | cons a l ih =>
    by_cases hc : (a.id == w.id) = true
    · simp only [saveUser, List.map_cons] at ih ⊢
      rw [if_pos hc, if_pos (beq_self_eq_true w.id)]
      exact congrArg _ ih
    · simp only [saveUser, List.map_cons] at ih ⊢
      rw [if_neg hc, if_neg hc]
      exact congrArg _ ih

/-- In a catalog whose plan ids are distinct, two member plans with the same
id are the same plan. -/
theorem plan_eq_of_id_eq {plans : List Plan} {p q : Plan}
    (hnd : (plans.map (fun r => r.id)).Nodup) (hp : p ∈ plans) (hq : q ∈ plans)
    (h : p.id = q.id) : p = q :=
  List.inj_on_of_nodup_map hnd hp hq h

/-! ### Concrete fixtures used by witnesses -/

/-- A concrete active Monthly plan. -/
def planMonthly : Plan :=
  { id := "p_m", name := "Basic Monthly", type := "Monthly",
    stripePriceId := some "price_m", isActive := true }

/-- A concrete active Yearly plan. -/
def planYearly : Plan :=
  { id := "p_y", name := "Basic Yearly", type := "Yearly",
    stripePriceId := some "price_y", isActive := true }

/-- A concrete two-plan catalog. -/
def demoPlans : List Plan := [planMonthly, planYearly]

/-- A concrete user on an active Monthly subscription. -/
def demoUserActive : User :=
  { id := "u1", email := "u1@example.test", name := "User One",
    stripeCustomerId := some "cus_1", stripeSubscriptionId := some "sub_1",
    subscriptionStatus := some "active", currentPlanId := some "p_m",
    currentPlanType := some "Monthly", subscriptionExpiresAt := some 0 }

/-- A concrete user with no billing state at all. -/
def demoUserFresh : User :=
  { id := "u2", email := "u2@example.test", name := "User Two",
    stripeCustomerId := none, stripeSubscriptionId := none,
    subscriptionStatus := none, currentPlanId := none,
    currentPlanType := none, subscriptionExpiresAt := none }

/-- A concrete webhook gateway oracle whose retrieve always succeeds. -/
def demoStripeEnv : StripeEnv :=
  { retrieveSub := fun s =>
      .ok { id := s, status := "active", current_period_end := 100,
            items := [{ id := "si_1", priceId := "price_m" }] } }

/-- A concrete webhook gateway oracle whose subscription retrieve always
rejects. -/
def demoFailStripeEnv : StripeEnv :=
  { retrieveSub := fun _ => .error "subscription retrieve rejected" }

/-- A concrete upgrade gateway oracle whose live subscription carries a line
item that matches no local price ref. -/
def demoUpgradeEnv : UpgradeEnv :=
  { retrieveSub := fun s =>
      { id := s, status := "active", current_period_end := 100,
        items := [{ id := "si_1", priceId := "price_other" }] }
    updateSub := fun s _ _ =>
      .ok { id := s, status := "active", current_period_end := 100, items := [] } }

/-- A concrete checkout gateway oracle that succeeds on both calls. -/
def demoCheckoutEnv : CheckoutEnv :=
  { createCustomer := fun _ _ _ => .ok "cus_9"
    createSession := fun _ _ => .ok { id := "cs_1", url := "https://example.test/pay" } }

/-! ### Claims -/

/-- C1: for every user whose billing record lacks an external subscription
reference, or whose subscriptionStatus is not exactly active, or whose plan
kind is not exactly Monthly, upgradeToYearly fails with the 400
precondition error, performs no gateway call, and performs no billing-record
mutation. -/
theorem upgradeToYearly_precondition_failed (env : UpgradeEnv) (plans : List Plan)
    (user : User)
    (h : user.stripeSubscriptionId = none ∨ user.subscriptionStatus ≠ some "active" ∨
         user.currentPlanType ≠ some "Monthly") :
    (upgradeToYearly env plans user).response =
      .error { statusCode := 400,
               message := "You must have an active Monthly plan to upgrade to Yearly." } ∧
    (upgradeToYearly env plans user).trace = [] ∧
    (upgradeToYearly env plans user).user = user := by
  have hcond : truthyOptStr user.stripeSubscriptionId = false ∨
      user.subscriptionStatus ≠ some "active" ∨ user.currentPlanType ≠ some "Monthly" := by
    rcases h with h | h
    · exact Or.inl (by rw [h]; rfl)
    · exact Or.inr h
  simp only [upgradeToYearly]
  rw [if_pos hcond]
  exact ⟨rfl, rfl, rfl⟩

/-- Witness for C1 at a user with no subscription reference. -/
theorem upgradeToYearly_precondition_failed_witness :
    (upgradeToYearly demoUpgradeEnv demoPlans demoUserFresh).response =
      .error { statusCode := 400,
               message := "You must have an active Monthly plan to upgrade to Yearly." } ∧
    (upgradeToYearly demoUpgradeEnv demoPlans demoUserFresh).trace = [] ∧
    (upgradeToYearly demoUpgradeEnv demoPlans demoUserFresh).user = demoUserFresh :=
  upgradeToYearly_precondition_failed demoUpgradeEnv demoPlans demoUserFresh (Or.inl rfl)

/-- C8: any event of an unhandled kind is acknowledged with 200 and mutates
no user billing record. -/
theorem webhook_unknown_event_noop (env : StripeEnv) (now : Int)
    (users : List User) (plans : List Plan) (ty : String) :
    (handleStripeWebhook env now users plans (.ok (.otherEvent ty))).status = 200 ∧
    (handleStripeWebhook env now users plans (.ok (.otherEvent ty))).users = users :=
  ⟨rfl, rfl⟩

/-- C4 counterexample: a payload that passes verification — a
checkout-completed event with an attached subscription — is answered with the
server error 500, not a success, when the uncaught subscription retrieve of
line 134 rejects, refuting the claim that every verified payload is
acknowledged with success. -/
theorem webhook_ack_counterexample :
    (handleStripeWebhook demoFailStripeEnv 0 [demoUserActive] demoPlans
        (.ok (.checkoutSessionCompleted
          { id := "cs_2", customer := "cus_1", subscription := some "sub_1",
            metadata := { userId := "u1", planId := "p_m",
                          planType := "Monthly" } }))).status = 500 ∧
    (500 : Nat) ≠ 200 := by
  constructor
  · decide
  · decide

/-- On a verified event the webhook answers 200 when the retrieve the arm
makes (if any) succeeds, and otherwise 500 with the store untouched. -/
theorem webhook_ok_status (env : StripeEnv) (now : Int) (users : List User)
    (plans : List Plan) (e : StripeEvent) :
    ((handleStripeWebhook env now users plans (.ok e)).status = 200 ∧
       eventRetrieveOk env e = true) ∨
    ((handleStripeWebhook env now users plans (.ok e)).status = 500 ∧
       eventRetrieveOk env e = false ∧
       (handleStripeWebhook env now users plans (.ok e)).users = users) := by
  cases e with
  | checkoutSessionCompleted s =>
    by_cases ht : truthyOptStr s.subscription = true
    · cases hr : env.retrieveSub (s.subscription.getD "") with
      | ok sub =>
        left
        constructor
        · simp [handleStripeWebhook, handleCheckoutCompleted, ht, hr]
        · simp [eventRetrieveOk, ht, hr]
      | error m =>
        right
        refine ⟨?_, ?_, ?_⟩
        · simp [handleStripeWebhook, handleCheckoutCompleted, ht, hr]
        · simp [eventRetrieveOk, ht, hr]
        · simp [handleStripeWebhook, handleCheckoutCompleted, ht, hr]
    · left
      constructor
      · simp [handleStripeWebhook, handleCheckoutCompleted, ht]
      · simp [eventRetrieveOk, ht]
  | invoicePaymentSucceeded i =>
    by_cases ht : truthyOptStr i.subscription = true
    · cases hr : env.retrieveSub (i.subscription.getD "") with
      | ok sub =>
        left
        constructor
        · simp [handleStripeWebhook, handleInvoicePaymentSucceeded, ht, hr]
        · simp [eventRetrieveOk, ht, hr]
      | error m =>
        right
        refine ⟨?_, ?_, ?_⟩
        · simp [handleStripeWebhook, handleInvoicePaymentSucceeded, ht, hr]
        · simp [eventRetrieveOk, ht, hr]
        · simp [handleStripeWebhook, handleInvoicePaymentSucceeded, ht, hr]
    · left
      constructor
      · simp [handleStripeWebhook, handleInvoicePaymentSucceeded, ht]
      · simp [eventRetrieveOk, ht]
  | customerSubscriptionUpdated sub =>
    left
    exact ⟨rfl, rfl⟩
  | customerSubscriptionDeleted d =>
    left
    exact ⟨rfl, rfl⟩
  | otherEvent ty =>
    left
    exact ⟨rfl, rfl⟩

/-- C4 (amended): the webhook endpoint answers the client error 400 exactly
on verification failures; a verified payload is acknowledged 200 exactly when
the retrieve its arm makes (if any) succeeds — in particular whenever the
referenced local user or plan is missing — and an uncaught retrieve rejection
escapes as the server error 500 with the store untouched. -/
theorem webhook_ack_amended (env : StripeEnv) (now : Int) (users : List User)
    (plans : List Plan) (v : VerifyResult) :
    ((handleStripeWebhook env now users plans v).status = 400 ↔
       ∃ m, v = VerifyResult.failed m) ∧
    (∀ e, v = VerifyResult.ok e →
       ((handleStripeWebhook env now users plans v).status = 200 ↔
         eventRetrieveOk env e = true)) ∧
    (∀ e, v = VerifyResult.ok e → eventRetrieveOk env e = false →
       (handleStripeWebhook env now users plans v).status = 500 ∧
       (handleStripeWebhook env now users plans v).users = users) := by
  cases v with
  | failed m =>
    refine ⟨?_, ?_, ?_⟩
    · simp [handleStripeWebhook]
    · intro e he
      exact absurd he (by simp)
    · intro e he
      exact absurd he (by simp)
  | ok e =>
    have h := webhook_ok_status env now users plans e
    refine ⟨?_, ?_, ?_⟩
    · rcases h with ⟨h1, _⟩ | ⟨h1, _, _⟩ <;> simp [h1]
    · intro e2 he2
      have he3 : e2 = e := by
        injection he2 with h3
        exact h3.symm
      subst he3
      rcases h with ⟨h1, h2⟩ | ⟨h1, h2, _⟩
      · simp [h1, h2]
      · simp [h1, h2]
    · intro e2 he2 hbad
      have he3 : e2 = e := by
        injection he2 with h3
        exact h3.symm
      subst he3
      rcases h with ⟨h1, h2⟩ | ⟨h1, h2, h3⟩
      · rw [h2] at hbad
        exact absurd hbad (by simp)
      · exact ⟨h1, h3⟩

/-- Witness for the amended C4: a rejecting retrieve on an invoice event with
an attached subscription yields 500 and leaves the store untouched. -/
theorem webhook_ack_amended_witness :
    (handleStripeWebhook demoFailStripeEnv 0 [demoUserActive] demoPlans
        (.ok (.invoicePaymentSucceeded
          { id := "in_1", subscription := some "sub_1" }))).status = 500 ∧
    (handleStripeWebhook demoFailStripeEnv 0 [demoUserActive] demoPlans
        (.ok (.invoicePaymentSucceeded
          { id := "in_1", subscription := some "sub_1" }))).users =
      [demoUserActive] :=
  (webhook_ack_amended demoFailStripeEnv 0 [demoUserActive] demoPlans
      (.ok (.invoicePaymentSucceeded { id := "in_1", subscription := some "sub_1" }))).2.2
    (.invoicePaymentSucceeded { id := "in_1", subscription := some "sub_1" })
    rfl (by decide)

/-- C9: a plan id that matches no catalog plan, or a plan that is not active,
makes createCheckoutSession fail with the invalid-plan 400 error with an
empty trace: no gateway call and no billing-record mutation happened. -/
theorem createCheckoutSession_invalid_plan (env : CheckoutEnv) (plans : List Plan)
    (user : User) (planId : Option String)
    (hpid : truthyOptStr planId = true)
    (h : plans.find? (fun p => p.id == planId.getD "") = none ∨
         ∃ p, plans.find? (fun p2 => p2.id == planId.getD "") = some p ∧
           p.isActive = false) :
    (createCheckoutSession env plans user planId).response =
      .error { statusCode := 400, message := "Selected plan not found or is inactive." } ∧
    (createCheckoutSession env plans user planId).trace = [] ∧
    (createCheckoutSession env plans user planId).user = user := by
  rcases h with h | ⟨p, hp, hact⟩
  · refine ⟨?_, ?_, ?_⟩ <;> simp [createCheckoutSession, hpid, h]
  · refine ⟨?_, ?_, ?_⟩ <;> simp [createCheckoutSession, hpid, hp, hact]

/-- Witness for C9 at a plan id outside the catalog. -/
theorem createCheckoutSession_invalid_plan_witness :
    (createCheckoutSession demoCheckoutEnv demoPlans demoUserFresh (some "p_nope")).response =
      .error { statusCode := 400, message := "Selected plan not found or is inactive." } ∧
    (createCheckoutSession demoCheckoutEnv demoPlans demoUserFresh (some "p_nope")).trace = [] ∧
    (createCheckoutSession demoCheckoutEnv demoPlans demoUserFresh (some "p_nope")).user =
      demoUserFresh :=
  createCheckoutSession_invalid_plan demoCheckoutEnv demoPlans demoUserFresh (some "p_nope")
    (by decide) (Or.inl (by decide))

/-- C10: a subscription-updated event that matches a stored user but whose
first line item's price resolves to no catalog plan still refreshes status
and expiry from the snapshot while the plan reference and kind fields stay
those of the stored record. -/
theorem subscription_updated_unknown_price (env : StripeEnv) (now : Int)
    (users : List User) (plans : List Plan) (sub : SubSnapshot) (u : User)
    (item : SubItem) (rest : List SubItem)
    (hfind : users.find? (fun v => v.stripeSubscriptionId == some sub.id) = some u)
    (hitems : sub.items = item :: rest)
    (hplan : plans.find? (fun p => p.stripePriceId == some item.priceId) = none) :
    (handleStripeWebhook env now users plans
        (.ok (.customerSubscriptionUpdated sub))).users =
      saveUser users
        { u with
          subscriptionStatus := some sub.status
          subscriptionExpiresAt := some (sub.current_period_end * 1000) } := by
  show handleSubscriptionUpdated users plans sub = _
  simp [handleSubscriptionUpdated, hfind, hitems, hplan]

/-- Witness for C10: a snapshot whose only line item carries an unknown price. -/
theorem subscription_updated_unknown_price_witness :
    (handleStripeWebhook demoStripeEnv 0 [demoUserActive] demoPlans
        (.ok (.customerSubscriptionUpdated
          { id := "sub_1", status := "past_due", current_period_end := 200,
            items := [{ id := "si_9", priceId := "price_unknown" }] }))).users =
      saveUser [demoUserActive]
        { demoUserActive with
          subscriptionStatus := some "past_due"
          subscriptionExpiresAt := some (200 * 1000) } :=
  subscription_updated_unknown_price demoStripeEnv 0 [demoUserActive] demoPlans
    { id := "sub_1", status := "past_due", current_period_end := 200,
      items := [{ id := "si_9", priceId := "price_unknown" }] }
    demoUserActive { id := "si_9", priceId := "price_unknown" } []
    (by decide) rfl (by decide)

/-- C5 counterexample: a subscription-deleted event whose period-end is
present but zero (a falsy number in the source's truthiness test) sets the
expiry to the current time (here 5), not to the present period-end value
(which would give 0), refuting the claim that a present period-end is always
used. -/
theorem subscription_deleted_zero_period_end_counterexample :
    ((handleStripeWebhook demoStripeEnv 5 [demoUserActive] demoPlans
        (.ok (.customerSubscriptionDeleted
          { id := "sub_1", current_period_end := some 0 }))).users.map
      (fun u => u.subscriptionExpiresAt)) = [some 5] ∧
    some ((0 : Int) * 1000) ≠ (some 5 : Option Int) := by
  constructor
  · decide
  · decide

/-- C5 amended: a subscription-deleted event matching a stored user clears
the subscription reference and the plan reference and kind, sets status to
canceled, and sets expiry to the period-end when it is present and nonzero
and to the current time otherwise; with no matching user the store is
unchanged. -/
theorem subscription_deleted_spec (env : StripeEnv) (now : Int) (users : List User)
    (plans : List Plan) (dsub : DeletedSubObj) :
    (∀ u, users.find? (fun v => v.stripeSubscriptionId == some dsub.id) = some u →
       (handleStripeWebhook env now users plans
           (.ok (.customerSubscriptionDeleted dsub))).users =
         saveUser users
           { u with
             stripeSubscriptionId := none
             currentPlanId := none
             currentPlanType := none
             subscriptionStatus := some "canceled"
             subscriptionExpiresAt :=
               some (match dsub.current_period_end with
                     | some t => if t == 0 then now else t * 1000
                     | none => now) }) ∧
    (users.find? (fun v => v.stripeSubscriptionId == some dsub.id) = none →
       (handleStripeWebhook env now users plans
           (.ok (.customerSubscriptionDeleted dsub))).users = users) := by
  constructor
  · intro u hu
    show handleSubscriptionDeleted now users dsub = _
    simp [handleSubscriptionDeleted, hu]
  · intro hn
    show handleSubscriptionDeleted now users dsub = users
    simp [handleSubscriptionDeleted, hn]

/-- Witness for the amended C5 at a matching user and a nonzero period-end. -/
theorem subscription_deleted_spec_witness :
    (handleStripeWebhook demoStripeEnv 7 [demoUserActive] demoPlans
        (.ok (.customerSubscriptionDeleted
          { id := "sub_1", current_period_end := some 300 }))).users =
      saveUser [demoUserActive]
        { demoUserActive with
          stripeSubscriptionId := none
          currentPlanId := none
          currentPlanType := none
          subscriptionStatus := some "canceled"
          subscriptionExpiresAt := some (300 * 1000) } :=
  (subscription_deleted_spec demoStripeEnv 7 [demoUserActive] demoPlans
      { id := "sub_1", current_period_end := some 300 }).1
    demoUserActive (by decide)

/-- C2: for a user passing the upgrade preconditions (with the active Yearly
plan configured, so that the gateway stage is reached), upgradeToYearly
retrieves the live snapshot (the retrieve call is in the trace) and looks for
the line item whose price equals the price ref of the plan referenced by the
user's current plan; when no item matches it fails with the 500
internal-inconsistency error and the trace holds no subscription-update
call. -/
theorem upgradeToYearly_no_matching_item (env : UpgradeEnv) (plans : List Plan)
    (user : User) (yp : Plan)
    (h1 : truthyOptStr user.stripeSubscriptionId = true)
    (h2 : user.subscriptionStatus = some "active")
    (h3 : user.currentPlanType = some "Monthly")
    (h4 : plans.find? (fun p => p.type == "Yearly" && p.isActive) = some yp)
    (h5 : truthyOptStr yp.stripePriceId = true)
    (h6 : (env.retrieveSub (user.stripeSubscriptionId.getD "")).items.find?
            (fun item => some item.priceId == currentPlanPriceRef plans user) = none) :
    (upgradeToYearly env plans user).response =
      .error { statusCode := 500, message := "Could not find current subscription item." } ∧
    (upgradeToYearly env plans user).trace =
      [.gatewayCall (.retrieveSubscriptionCall (user.stripeSubscriptionId.getD ""))] ∧
    (upgradeToYearly env plans user).user = user := by
  refine ⟨?_, ?_, ?_⟩ <;> simp [upgradeToYearly, h1, h2, h3, h4, h5, h6]

/-- Witness for C2: an active Monthly user whose live subscription holds only
an item with an unrelated price. -/
theorem upgradeToYearly_no_matching_item_witness :
    (upgradeToYearly demoUpgradeEnv demoPlans demoUserActive).response =
      .error { statusCode := 500, message := "Could not find current subscription item." } ∧
    (upgradeToYearly demoUpgradeEnv demoPlans demoUserActive).trace =
      [.gatewayCall (.retrieveSubscriptionCall
        (demoUserActive.stripeSubscriptionId.getD ""))] ∧
    (upgradeToYearly demoUpgradeEnv demoPlans demoUserActive).user = demoUserActive :=
  upgradeToYearly_no_matching_item demoUpgradeEnv demoPlans demoUserActive planYearly
    (by decide) rfl rfl (by decide) (by decide) (by decide)

/-- C6: for a user with no external customer reference starting checkout on a
valid active plan, when customer creation returns a reference the record is
saved with that reference before the checkout-session call is issued (the
save precedes the session call in the trace), and the resulting record equals
the input record with only the customer reference set, whatever the session
call outcome; when customer creation itself fails, nothing at all is
mutated. -/
theorem createCheckoutSession_customer_persisted (env : CheckoutEnv)
    (plans : List Plan) (user : User) (planId : Option String) (plan : Plan)
    (hpid : truthyOptStr planId = true)
    (hplan : plans.find? (fun p => p.id == planId.getD "") = some plan)
    (hact : plan.isActive = true)
    (hnocust : truthyOptStr user.stripeCustomerId = false) :
    (∀ c, env.createCustomer user.email user.name user.id = .ok c →
       (createCheckoutSession env plans user planId).user =
         { user with stripeCustomerId := some c } ∧
       (createCheckoutSession env plans user planId).trace =
         [.gatewayCall (.createCustomerCall user.email user.name user.id),
          .saveRecord { user with stripeCustomerId := some c },
          .gatewayCall (.createSessionCall c plan.stripePriceId user.id plan.id plan.type)]) ∧
    (∀ m, env.createCustomer user.email user.name user.id = .error m →
       (createCheckoutSession env plans user planId).user = user ∧
       (createCheckoutSession env plans user planId).trace =
         [.gatewayCall (.createCustomerCall user.email user.name user.id)] ∧
       (createCheckoutSession env plans user planId).response =
         .error { statusCode := 500, message := m }) := by
  constructor
  · intro c hc
    cases hs : env.createSession c plan.stripePriceId with
    | ok s =>
      refine ⟨?_, ?_⟩ <;>
        simp [createCheckoutSession, checkoutSessionStep, hpid, hplan, hact, hnocust, hc, hs]
    | error m =>
      refine ⟨?_, ?_⟩ <;>
        simp [createCheckoutSession, checkoutSessionStep, hpid, hplan, hact, hnocust, hc, hs]
  · intro m hm
    refine ⟨?_, ?_, ?_⟩ <;>
      simp [createCheckoutSession, hpid, hplan, hact, hnocust, hm]

/-- Witness for C6: the fresh user buying the Monthly plan through the
always-succeeding gateway oracle. -/
theorem createCheckoutSession_customer_persisted_witness :
    (createCheckoutSession demoCheckoutEnv demoPlans demoUserFresh (some "p_m")).user =
      { demoUserFresh with stripeCustomerId := some "cus_9" } ∧
    (createCheckoutSession demoCheckoutEnv demoPlans demoUserFresh (some "p_m")).trace =
      [.gatewayCall (.createCustomerCall demoUserFresh.email demoUserFresh.name
          demoUserFresh.id),
       .saveRecord { demoUserFresh with stripeCustomerId := some "cus_9" },
       .gatewayCall (.createSessionCall "cus_9" planMonthly.stripePriceId
          demoUserFresh.id planMonthly.id planMonthly.type)] :=
  (createCheckoutSession_customer_persisted demoCheckoutEnv demoPlans demoUserFresh
      (some "p_m") planMonthly (by decide) (by decide) rfl rfl).1 "cus_9" rfl

/-- Re-applying the checkout write to its own result writes the same record. -/
theorem checkoutWrite_self (sub : SubSnapshot) (s : CheckoutSessionObj) (p : Plan)
    (u : User) : checkoutWrite sub s p (checkoutWrite sub s p u) = checkoutWrite sub s p u :=
  rfl

/-- The checkout write never changes a record's id. -/
theorem checkoutWrite_id (sub : SubSnapshot) (s : CheckoutSessionObj) (p : Plan)
    (u : User) : (checkoutWrite sub s p u).id = u.id :=
  rfl

/-- The checkout arm on a store whose retrieve and metadata lookups all
succeed saves the checkout write of the found user. -/
theorem handleCheckoutCompleted_of_find (env : StripeEnv) (store : List User)
    (plans : List Plan) (s : CheckoutSessionObj) (sub : SubSnapshot) (u : User)
    (p : Plan)
    (ht : truthyOptStr s.subscription = true)
    (hr : env.retrieveSub (s.subscription.getD "") = .ok sub)
    (hu : store.find? (fun x => x.id == s.metadata.userId) = some u)
    (hp : plans.find? (fun q => q.id == s.metadata.planId) = some p) :
    handleCheckoutCompleted env store plans s =
      .ok (saveUser store (checkoutWrite sub s p u)) := by
  simp [handleCheckoutCompleted, ht, hr, hu, hp]

/-- C3: replaying a checkout-completed event leaves the user store exactly as
one application left it, for every store, catalog, gateway oracle and event
(the handler writes absolute values, so the second application rewrites the
same record). -/
theorem checkoutCompleted_replay_idempotent (env : StripeEnv) (nowA nowB : Int)
    (users : List User) (plans : List Plan) (s : CheckoutSessionObj) :
    (handleStripeWebhook env nowB
        (handleStripeWebhook env nowA users plans
          (.ok (.checkoutSessionCompleted s))).users
        plans (.ok (.checkoutSessionCompleted s))).users =
      (handleStripeWebhook env nowA users plans
        (.ok (.checkoutSessionCompleted s))).users := by
  by_cases ht : truthyOptStr s.subscription = true
  · cases hr : env.retrieveSub (s.subscription.getD "") with
    | error m =>
      have hA : handleCheckoutCompleted env users plans s = .error m := by
        simp [handleCheckoutCompleted, ht, hr]
      have h1 : (handleStripeWebhook env nowA users plans
          (.ok (.checkoutSessionCompleted s))).users = users := by
        simp [handleStripeWebhook, hA]
      rw [h1]
      simp [handleStripeWebhook, hA]
    | ok sub =>
      cases hu : users.find? (fun x => x.id == s.metadata.userId) with
      | none =>
        have hA : handleCheckoutCompleted env users plans s = .ok users := by
          cases hp : plans.find? (fun q => q.id == s.metadata.planId) with
          | none => simp [handleCheckoutCompleted, ht, hr, hu, hp]
          | some p => simp [handleCheckoutCompleted, ht, hr, hu, hp]
        have h1 : (handleStripeWebhook env nowA users plans
            (.ok (.checkoutSessionCompleted s))).users = users := by
          simp [handleStripeWebhook, hA]
        rw [h1]
        simp [handleStripeWebhook, hA]
      | some u =>
        cases hp : plans.find? (fun q => q.id == s.metadata.planId) with
        | none =>
          have hA : handleCheckoutCompleted env users plans s = .ok users := by
            simp [handleCheckoutCompleted, ht, hr, hu, hp]
          have h1 : (handleStripeWebhook env nowA users plans
              (.ok (.checkoutSessionCompleted s))).users = users := by
            simp [handleStripeWebhook, hA]
          rw [h1]
          simp [handleStripeWebhook, hA]
        | some p =>
          have hbeq := List.find?_some hu
          have huid : u.id = s.metadata.userId := by
            simp only [beq_iff_eq] at hbeq
            exact hbeq
          have hA := handleCheckoutCompleted_of_find env users plans s sub u p ht hr hu hp
          have h1 : (handleStripeWebhook env nowA users plans
              (.ok (.checkoutSessionCompleted s))).users =
              saveUser users (checkoutWrite sub s p u) := by
            simp [handleStripeWebhook, hA]
          rw [h1]
          have hfw : (saveUser users (checkoutWrite sub s p u)).find?
              (fun x => x.id == s.metadata.userId) = some (checkoutWrite sub s p u) :=
            find?_id_saveUser hu huid
          have hA2 := handleCheckoutCompleted_of_find env
            (saveUser users (checkoutWrite sub s p u)) plans s sub
            (checkoutWrite sub s p u) p ht hr hfw hp
          rw [checkoutWrite_self] at hA2
          have h2 : (handleStripeWebhook env nowB
              (saveUser users (checkoutWrite sub s p u)) plans
              (.ok (.checkoutSessionCompleted s))).users =
              saveUser (saveUser users (checkoutWrite sub s p u))
                (checkoutWrite sub s p u) := by
            simp [handleStripeWebhook, hA2]
          rw [h2]
          exact saveUser_saveUser users (checkoutWrite sub s p u)
  · have hA : handleCheckoutCompleted env users plans s = .ok users := by
      simp [handleCheckoutCompleted, ht]
    have h1 : (handleStripeWebhook env nowA users plans
        (.ok (.checkoutSessionCompleted s))).users = users := by
      simp [handleStripeWebhook, hA]
    rw [h1]
    simp [handleStripeWebhook, hA]

/-- A record of the store after a save satisfies the invariants when the
saved record and all prior records do. -/
theorem billingInv_of_saveUser {plans : List Plan} {users : List User} {w u : User}
    (hinv : ∀ x ∈ users, BillingInv plans x) (hw : BillingInv plans w)
    (hu : u ∈ saveUser users w) : BillingInv plans u := by
  rcases mem_saveUser hu with h | h
  · exact h ▸ hw
  · exact hinv u h

/-- C7: over a catalog with distinct plan ids, every webhook delivery
(verification failures and all five event arms) maps a store whose records
all satisfy the billing invariants — subscription ref set implies status not
absent, and plan kind agrees with the referenced catalog plan's kind and is
absent when the ref is absent — to a store whose records all satisfy them. -/
theorem webhook_preserves_invariants (env : StripeEnv) (now : Int)
    (users : List User) (plans : List Plan) (v : VerifyResult)
    (hids : (plans.map (fun p => p.id)).Nodup)
    (hinv : ∀ x ∈ users, BillingInv plans x) :
    ∀ u ∈ (handleStripeWebhook env now users plans v).users, BillingInv plans u := by
  intro u hu
  cases v with
  | failed m => exact hinv u hu
  | ok e =>
    cases e with
    | otherEvent ty => exact hinv u hu
    | checkoutSessionCompleted s =>
      by_cases ht : truthyOptStr s.subscription = true
      · cases hr : env.retrieveSub (s.subscription.getD "") with
        | error m =>
          have hX : (handleStripeWebhook env now users plans
              (.ok (.checkoutSessionCompleted s))).users = users := by
            simp [handleStripeWebhook, handleCheckoutCompleted, ht, hr]
          rw [hX] at hu
          exact hinv u hu
        | ok sub =>
          cases hfu : users.find? (fun x => x.id == s.metadata.userId) with
          | none =>
            have hX : (handleStripeWebhook env now users plans
                (.ok (.checkoutSessionCompleted s))).users = users := by
              cases hfp : plans.find? (fun q => q.id == s.metadata.planId) with
              | none =>
                simp [handleStripeWebhook, handleCheckoutCompleted, ht, hr, hfu, hfp]
              | some p =>
                simp [handleStripeWebhook, handleCheckoutCompleted, ht, hr, hfu, hfp]
            rw [hX] at hu
            exact hinv u hu
          | some u0 =>
            cases hfp : plans.find? (fun q => q.id == s.metadata.planId) with
            | none =>
              have hX : (handleStripeWebhook env now users plans
                  (.ok (.checkoutSessionCompleted s))).users = users := by
                simp [handleStripeWebhook, handleCheckoutCompleted, ht, hr, hfu, hfp]
              rw [hX] at hu
              exact hinv u hu
            | some p =>
              have hX : (handleStripeWebhook env now users plans
                  (.ok (.checkoutSessionCompleted s))).users =
                  saveUser users (checkoutWrite sub s p u0) := by
                simp [handleStripeWebhook, handleCheckoutCompleted, ht, hr, hfu, hfp]
              rw [hX] at hu
              refine billingInv_of_saveUser hinv ⟨?_, ?_⟩ hu
              · rfl
              · have hbeq := List.find?_some hfp
                have hpid : p.id = s.metadata.planId := by
                  simp only [beq_iff_eq] at hbeq
                  exact hbeq
                have hfind : plans.find? (fun q => q.id == p.id) = some p := by
                  rw [hpid]
                  exact hfp
                simp [planKindOk, checkoutWrite, hfind]
      · have hX : (handleStripeWebhook env now users plans
            (.ok (.checkoutSessionCompleted s))).users = users := by
          simp [handleStripeWebhook, handleCheckoutCompleted, ht]
        rw [hX] at hu
        exact hinv u hu
    | invoicePaymentSucceeded i =>
      by_cases ht : truthyOptStr i.subscription = true
      · cases hr : env.retrieveSub (i.subscription.getD "") with
        | error m =>
          have hX : (handleStripeWebhook env now users plans
              (.ok (.invoicePaymentSucceeded i))).users = users := by
            simp [handleStripeWebhook, handleInvoicePaymentSucceeded, ht, hr]
          rw [hX] at hu
          exact hinv u hu
        | ok sub =>
          cases hfu : users.find?
              (fun x => x.stripeSubscriptionId == some sub.id) with
          | none =>
            have hX : (handleStripeWebhook env now users plans
                (.ok (.invoicePaymentSucceeded i))).users = users := by
              simp [handleStripeWebhook, handleInvoicePaymentSucceeded, ht, hr, hfu]
            rw [hX] at hu
            exact hinv u hu
          | some u0 =>
            have hX : (handleStripeWebhook env now users plans
                (.ok (.invoicePaymentSucceeded i))).users =
                saveUser users
                  { u0 with
                    subscriptionStatus := some sub.status
                    subscriptionExpiresAt := some (sub.current_period_end * 1000) } := by
              simp [handleStripeWebhook, handleInvoicePaymentSucceeded, ht, hr, hfu]
            rw [hX] at hu
            have h0 := hinv u0 (List.mem_of_find?_eq_some hfu)
            refine billingInv_of_saveUser hinv ⟨?_, ?_⟩ hu
            · simp [subStatusOk]
            · exact h0.2
      · have hX : (handleStripeWebhook env now users plans
            (.ok (.invoicePaymentSucceeded i))).users = users := by
          simp [handleStripeWebhook, handleInvoicePaymentSucceeded, ht]
        rw [hX] at hu
        exact hinv u hu
    | customerSubscriptionUpdated sub =>
      have hu2 : u ∈ handleSubscriptionUpdated users plans sub := hu
      cases hfu : users.find? (fun x => x.stripeSubscriptionId == some sub.id) with
      | none =>
        simp only [handleSubscriptionUpdated] at hu2
        rw [hfu] at hu2
        exact hinv u hu2
      | some u0 =>
        have h0 := hinv u0 (List.mem_of_find?_eq_some hfu)
        cases hitems : sub.items with
        | nil =>
          simp only [handleSubscriptionUpdated, hfu, hitems] at hu2
          refine billingInv_of_saveUser hinv ⟨?_, ?_⟩ hu2
          · simp [subStatusOk]
          · exact h0.2
        | cons item rest =>
          cases hplan : plans.find? (fun p => p.stripePriceId == some item.priceId) with
          | none =>
            simp only [handleSubscriptionUpdated, hfu, hitems, hplan] at hu2
            refine billingInv_of_saveUser hinv ⟨?_, ?_⟩ hu2
            · simp [subStatusOk]
            · exact h0.2
          | some newPlan =>
            simp only [handleSubscriptionUpdated, hfu, hitems, hplan] at hu2
            refine billingInv_of_saveUser hinv ⟨?_, ?_⟩ hu2
            · simp [subStatusOk]
            · cases hq : plans.find? (fun q => q.id == newPlan.id) with
              | none => simp [planKindOk, hq]
              | some q =>
                have hbeq := List.find?_some hq
                have hqid : q.id = newPlan.id := by
                  simp only [beq_iff_eq] at hbeq
                  exact hbeq
                have hqe : q = newPlan :=
                  plan_eq_of_id_eq hids (List.mem_of_find?_eq_some hq)
                    (List.mem_of_find?_eq_some hplan) hqid
                simp [planKindOk, hq, hqe]
    | customerSubscriptionDeleted d =>
      have hu2 : u ∈ handleSubscriptionDeleted now users d := hu
      cases hfu : users.find? (fun x => x.stripeSubscriptionId == some d.id) with
      | none =>
        simp only [handleSubscriptionDeleted] at hu2
        rw [hfu] at hu2
        exact hinv u hu2
      | some u0 =>
        simp only [handleSubscriptionDeleted] at hu2
        rw [hfu] at hu2
        refine billingInv_of_saveUser hinv ⟨?_, ?_⟩ hu2
        · simp [subStatusOk]
        · simp [planKindOk]

/-- Witness for C7 on a concrete store, catalog and event. -/
theorem webhook_preserves_invariants_witness :
    BillingInv demoPlans demoUserFresh :=
  webhook_preserves_invariants demoStripeEnv 0 [demoUserFresh] demoPlans
    (.ok (.otherEvent "unknown.event")) (by decide) (by decide)
    demoUserFresh (by decide)
